/-
Verification of the OSINT workflow configuration builder (osint.py).

The file shallowly embeds the repository's single module:
  * the fixed roster of agent descriptors,
  * the target-parameterized investigation plan (7 task descriptors),
  * the investigation runner (orchestration call, report writing, catch-all
    error handling), with the external orchestrator and the file system made
    explicit parameters/state,
  * the query normalizer and the process entry point.

Python's string primitives used by the source (`str.replace`, `str.strip`,
the `in` containment test) are embedded as structural recursions over
character lists so that every definition evaluates inside the kernel.
-/
import Mathlib

namespace Osint

/-- Capability references handed to agents ("tools" in the source: the
serper.dev search tool and the website scrape tool). -/
inductive Tool where
  | search_tool
  | scrape_tool
deriving DecidableEq, Repr, Inhabited

/-- AgentDescriptor: a static persona configuration, mirroring the keyword
arguments of the source's `Agent(...)` constructor calls.  `allow_delegation`
defaults to `false` when the source omits it, matching the orchestration
library's documented default. -/
structure Agent where
  role : String
  goal : String
  backstory : String
  tools : List Tool
  verbose : Bool
  allow_delegation : Bool
deriving DecidableEq, Repr, Inhabited

/-- TaskDescriptor: one unit of work, mirroring the source's `Task(...)`
constructor calls. -/
structure Task where
  description : String
  expected_output : String
  agent : Agent
deriving DecidableEq, Repr, Inhabited

def lead_analyst : Agent :=
  { role := "Lead OSINT Analyst"
  , goal := "Coordinate OSINT research and analyze collected data"
  , backstory := "An experienced analyst with deep OSINT knowledge. \n    Specializes in building comprehensive profiles based on digital footprints.\n    Skilled in effective task delegation and integrating various information sources."
  , tools := [Tool.search_tool]
  , verbose := true
  , allow_delegation := true }

def social_expert : Agent :=
  { role := "Social Media Expert"
  , goal := "Find and analyze social media profiles"
  , backstory := "A specialist in social media analysis and online behavior.\n    Skilled in finding related accounts and identifying activity patterns."
  , tools := [Tool.search_tool, Tool.scrape_tool]
  , verbose := true
  , allow_delegation := false }

def technical_analyst : Agent :=
  { role := "Technical Analyst"
  , goal := "Analyze technical information and digital footprints"
  , backstory := "An expert in technical intelligence.\n    Specializes in analyzing domains, IPs, data leaks, and technical metadata."
  , tools := [Tool.search_tool, Tool.scrape_tool]
  , verbose := true
  , allow_delegation := false }

def behavior_analyst : Agent :=
  { role := "Behavioral Analyst"
  , goal := "Analyze behavioral patterns and connections"
  , backstory := "A specialist in behavioral analysis.\n    Skilled in identifying interests, connections, and behavior patterns based on digital footprints."
  , tools := [Tool.search_tool]
  , verbose := true
  , allow_delegation := false }

def verification_expert : Agent :=
  { role := "Data Verification Expert"
  , goal := "Verify the reliability of collected information"
  , backstory := "A specialist in verifying and confirming OSINT data.\n    Uses cross-reference analysis and multiple sources for verification.\n    Skilled in identifying misinformation and false leads."
  , tools := [Tool.search_tool, Tool.scrape_tool]
  , verbose := true
  , allow_delegation := false }

def deep_search_expert : Agent :=
  { role := "Deep Search Expert"
  , goal := "Find hidden and hard-to-access information"
  , backstory := "A specialist in deep OSINT search.\n    Skilled in finding information in archives, historical data, and specialized databases.\n    Specializes in uncovering non-obvious connections and hidden data."
  , tools := [Tool.search_tool, Tool.scrape_tool]
  , verbose := true
  , allow_delegation := false }

def task_keeper : Agent :=
  { role := "Task Keeper"
  , goal := "Ensure the research stays focused on the assigned task"
  , backstory := "A specialist in managing research focus.\n    Tracks the alignment of all actions with the initial task.\n    Helps agents stay on track with the research goal."
  , tools := [Tool.search_tool]
  , verbose := true
  , allow_delegation := false }

def context_analyst : Agent :=
  { role := "Context Analyst"
  , goal := "Maintain contextual integrity of the investigation"
  , backstory := "An expert in contextual analysis.\n    Combines disparate data into a unified context.\n    Tracks the relevance of information relative to the task."
  , tools := [Tool.search_tool]
  , verbose := true
  , allow_delegation := false }

def manager_agent : Agent :=
  { role := "OSINT Manager"
  , goal := "Manage the investigation process and coordinate agent work"
  , backstory := "An experienced OSINT investigation leader.\n    Specializes in coordinating complex investigations and managing a team of analysts.\n    Ensures effective agent interaction and result quality."
  , tools := []
  , verbose := true
  , allow_delegation := true }

/-- The plan builder `create_investigation_plan(target)`: seven task
descriptors in source order, each description an f-string interpolating the
target (the `++` marks the interpolation points of the Python f-strings). -/
def create_investigation_plan (target : String) : List Task :=
  [ { description := "\n        Conduct a preliminary analysis of the target: " ++ target ++ "\n        1. Identify main presence platforms\n        2. Find key identifiers (email, username, etc.)\n        3. Create an initial profile\n        4. Determine priority areas for deep analysis\n        \n        Delegate subtasks to other agents if necessary.\n        "
    , expected_output := "Provide a structured report containing:\n        1. List of found platforms\n        2. Found identifiers\n        3. Brief target profile\n        4. Priority areas for further analysis"
    , agent := lead_analyst }
  , { description := "\n        Based on the preliminary analysis, investigate the social networks of " ++ target ++ ":\n        1. Find all related profiles\n        2. Analyze contacts and connections\n        3. Study activity history\n        4. Identify behavioral patterns\n        "
    , expected_output := "Provide a report including:\n        1. List of found profiles with links\n        2. Main contacts and connections\n        3. Key points from activity history\n        4. Identified behavioral patterns"
    , agent := social_expert }
  , { description := "\n        Conduct a technical analysis of the found data on " ++ target ++ ":\n        1. Check for data leaks\n        2. Find related domains and IPs\n        3. Analyze technical metadata\n        4. Investigate digital footprints\n        "
    , expected_output := "Provide a technical report containing:\n        1. Found data leaks\n        2. List of related technical identifiers\n        3. Metadata analysis\n        4. Digital footprint map"
    , agent := technical_analyst }
  , { description := "\n        Based on the collected data, analyze the behavior of " ++ target ++ ":\n        1. Determine main interests\n        2. Identify behavioral patterns\n        3. Analyze social connections\n        4. Create a psychological profile\n        "
    , expected_output := "Provide a behavioral analysis including:\n        1. Interest map\n        2. Description of behavioral patterns\n        3. Social connection diagram\n        4. Psychological profile"
    , agent := behavior_analyst }
  , { description := "\n        Analyze all collected data on " ++ target ++ ":\n        1. Combine information from all agents\n        2. Identify data gaps\n        3. Plan additional search directions\n        4. Create a detailed target profile\n        "
    , expected_output := "Provide a final report containing:\n        1. Complete target profile\n        2. Identified data gaps\n        3. Plan for further investigation\n        4. Main conclusions and recommendations"
    , agent := lead_analyst }
  , { description := "\n        Conduct a deep search for information on " ++ target ++ ":\n        1. Investigate archival data and historical records\n        2. Analyze specialized databases\n        3. Find non-obvious connections and mentions\n        4. Investigate rare and specific sources\n        "
    , expected_output := "Provide a detailed report including:\n        1. Found archival data\n        2. Results from specialized database searches\n        3. Identified non-obvious connections\n        4. Information from rare sources"
    , agent := deep_search_expert }
  , { description := "\n        Verify the reliability of all collected information on " ++ target ++ ":\n        1. Conduct cross-reference analysis of data\n        2. Confirm information from multiple sources\n        3. Identify possible misinformation\n        4. Assess the reliability of each source\n        "
    , expected_output := "Provide a verification report including:\n        1. Confirmed data with sources\n        2. Debunked information\n        3. Data requiring additional verification\n        4. Source reliability assessment"
    , agent := verification_expert } ]

/-! ### Python string primitives

Embeddings of the Python primitives the source uses, written as structural
recursions over character lists so that they evaluate in the kernel.  -/

/-- Python's substring containment test `pat in s`, on character lists. -/
def listContainsSub (pat : List Char) : List Char → Bool
  | [] => pat.isEmpty
  | c :: cs => pat.isPrefixOf (c :: cs) || listContainsSub pat cs

/-- Python's `pat in s` on strings. -/
def strContainsSub (s pat : String) : Bool :=
  listContainsSub pat.data s.data

/-- Python's `str.replace` on character lists: replace every non-overlapping
occurrence of `pat`, scanning left to right.  The fuel argument (instantiated
with the input's length) only makes the recursion structural; each step
consumes at least one character, so the fuel never runs out. -/
def replaceFuel (pat repl : List Char) : Nat → List Char → List Char
  | _, [] => []
  | 0, s => s
  | fuel + 1, c :: cs =>
    if pat.isPrefixOf (c :: cs) then
      repl ++ replaceFuel pat repl fuel (List.drop (pat.length - 1) cs)
    else
      c :: replaceFuel pat repl fuel cs

/-- Python's `s.replace(pat, repl)` for a non-empty pattern (the only way the
source calls it; Python's empty-pattern behavior differs and is irrelevant
here). -/
def strReplace (s pat repl : String) : String :=
  if pat.isEmpty then s else String.mk (replaceFuel pat.data repl.data s.data.length s.data)

/-- Python's `str.strip()` restricted to ASCII whitespace: drop whitespace
characters from both ends.  (Python also strips a few rarer whitespace code
points; none occurs in this development.) -/
def strStrip (s : String) : String :=
  String.mk (((s.data.dropWhile Char.isWhitespace).reverse.dropWhile Char.isWhitespace).reverse)

/-! ### Query normalizer -/

/-- The prompt-echo marker tested and removed by `parse_osint_query`. -/
def osintMarker : String := "Enter target for OSINT:"

/-- The query normalizer `parse_osint_query(query)`: if the marker occurs in
the input, remove every occurrence and strip surrounding whitespace (the
source's `query.replace(...).strip()` guarded by `if ... in query`), then wrap
the resulting text in the fixed task-description template, which interpolates
it twice. -/
def parse_osint_query (query : String) : String :=
  let query := if strContainsSub query osintMarker
               then strStrip (strReplace query osintMarker "")
               else query
  "\n    Investigation target: " ++ query ++ "\n    \n    Required:\n    1. Find all available information on the target\n    2. Verify provided assumptions about age\n    3. If requested - determine the birth month\n    4. If requested - check presence on specialized forums\n    \n    Original query: " ++ query ++ "\n    "

/-- The normalization step of `parse_osint_query` on its own (source lines
280-281), used to state what the template is instantiated with. -/
def normalizeOsintQuery (query : String) : String :=
  if strContainsSub query osintMarker
  then strStrip (strReplace query osintMarker "")
  else query

/-- Modelled from the spec: the normalizer as §4.4 describes it, stripping the
marker only as a leading prefix and always stripping surrounding whitespace,
then wrapping in the same template.  Stated solely for comparison with
`parse_osint_query`, which is translated from the source. -/
def parse_osint_query_speced (query : String) : String :=
  let query := strStrip (if osintMarker.data.isPrefixOf query.data
                         then String.mk (query.data.drop osintMarker.data.length)
                         else query)
  "\n    Investigation target: " ++ query ++ "\n    \n    Required:\n    1. Find all available information on the target\n    2. Verify provided assumptions about age\n    3. If requested - determine the birth month\n    4. If requested - check presence on specialized forums\n    \n    Original query: " ++ query ++ "\n    "

/-! ### Crew configuration and the investigation runner

The external orchestrator (`crew.kickoff()`), the two `datetime.now()` reads,
and the possibility that a file write raises are the only non-pure effects in
`run_osint_investigation`; they are made explicit parameters.  The file system
is a name-to-content map threaded through the runner. -/

/-- Orchestrator process modes (only `hierarchical` is used here). -/
inductive ProcessMode where
  | sequential
  | hierarchical
deriving DecidableEq, Repr

/-- The `Crew(...)` configuration payload assembled by the runner. -/
structure Crew where
  agents : List Agent
  tasks : List Task
  verbose : Bool
  process : ProcessMode
  manager_agent : Agent
  memory : Bool
  planning : Bool
deriving DecidableEq, Repr

/-- The crew built inside `run_osint_investigation` for a given target. -/
def osintCrew (target : String) : Crew :=
  { agents :=
      [ lead_analyst
      , social_expert
      , technical_analyst
      , behavior_analyst
      , verification_expert
      , deep_search_expert
      , task_keeper
      , context_analyst ]
  , tasks := create_investigation_plan target
  , verbose := true
  , process := ProcessMode.hierarchical
  , manager_agent := manager_agent
  , memory := false
  , planning := true }

/-- The opaque result object returned by the orchestrator: its textual form
(what `str(result)` yields) and its Python truthiness. -/
structure OsintResult where
  text : String
  truthy : Bool
deriving DecidableEq, Repr, Inhabited

/-- The results directory as a write log, most recent write first.  A file's
content is the most recent write to its name, so `writeFile` (which models
`open(name, 'w')` followed by the writes) shadows any earlier write to the
same name, exactly as `'w'` mode truncates and rewrites an existing file. -/
structure FS where
  files : List (String × String)
deriving DecidableEq, Repr, Inhabited

def FS.writeFile (fs : FS) (name content : String) : FS :=
  ⟨(name, content) :: fs.files⟩

def FS.readFile (fs : FS) (name : String) : Option String :=
  (fs.files.find? (fun p => p.1 == name)).map (fun p => p.2)

/-- The ambient effects of one call to `run_osint_investigation`: the two
independently generated `datetime.now()` timestamps, the outcome of the
external `crew.kickoff()` call (`Except.error` models a raised exception,
carrying `str(e)`), and whether some `f.write` call raises (`writeFail k`
means the k-th of the five write calls raises, with message `writeErr`;
earlier writes have already reached the file, as in CPython, where
`open(..., 'w')` creates/truncates the file immediately). -/
structure RunEnv where
  ts1 : String
  ts2 : String
  kickoff : Except String OsintResult
  writeFail : Option Nat
  writeErr : String
deriving Repr

/-- The separator `"=" * 50`. -/
def sep50 : String := String.mk (List.replicate 50 '=')

/-- The report file name `osint_results/investigation_{timestamp}.txt`. -/
def reportFileName (ts : String) : String :=
  "osint_results/investigation_" ++ ts ++ ".txt"

/-- The five chunks passed to the five `f.write` calls, in order. -/
def reportChunks (target : String) (result : OsintResult) : List String :=
  [ "OSINT Investigation Report\n"
  , sep50 ++ "\n\n"
  , "Assigned task: " ++ target ++ "\n"
  , sep50 ++ "\n\n"
  , result.text ]

/-- The full report text of a successful run. -/
def reportContent (target : String) (result : OsintResult) : String :=
  String.join (reportChunks target result)

/-- The runner `run_osint_investigation(target)`.  Returns the function's
return value (`none` models Python's `None`), the file system after the call,
and the lines printed to standard output.  The whole body sits in one
`try/except Exception` that prints `"Error: " + str(e)` and returns `None`. -/
def run_osint_investigation (env : RunEnv) (target : String) (fs : FS) :
    Option OsintResult × FS × List String :=
  let _investigation_id := "osint_" ++ env.ts1
  let _crew := osintCrew target
  match env.kickoff with
  | Except.error e => (none, fs, ["Error: " ++ e])
  | Except.ok result =>
    let fname := reportFileName env.ts2
    let chunks := reportChunks target result
    match env.writeFail with
    | some k =>
      if k < chunks.length then
        (none, fs.writeFile fname (String.join (chunks.take k)), ["Error: " ++ env.writeErr])
      else
        (some result, fs.writeFile fname (String.join chunks), [])
    | none => (some result, fs.writeFile fname (String.join chunks), [])

/-! ### Process entry point -/

/-- Python truthiness of the runner's return value: `None` is falsy, a result
object carries its own truthiness. -/
def resultTruthy : Option OsintResult → Bool
  | none => false
  | some r => r.truthy

/-- What `print(result)` would show for the runner's return value. -/
def resultText : Option OsintResult → String
  | none => "None"
  | some r => r.text

/-- The `__main__` block: normalize the entered query, run the investigation,
and print the results banner and the result only when the return value is
truthy.  Returns the final file system and every line printed after the
prompt. -/
def osint_main (env : RunEnv) (query : String) (fs : FS) : FS × List String :=
  let formatted_task := parse_osint_query query
  match run_osint_investigation env formatted_task fs with
  | (result, fs2, printed) =>
    if resultTruthy result then
      (fs2, printed ++ ["\nInvestigation results:", resultText result])
    else
      (fs2, printed)

/-- Specification predicate: `sub` occurs verbatim inside `s`. -/
def containsSubstring (s sub : String) : Prop :=
  ∃ a b, s = a ++ sub ++ b

/-! ### Helper lemmas -/

theorem containsSubstring_of_append (a b sub : String) :
    containsSubstring (a ++ sub ++ b) sub :=
  ⟨a, b, rfl⟩

theorem FS.readFile_writeFile_self (fs : FS) (n c : String) :
    (fs.writeFile n c).readFile n = some c := by
  simp [FS.writeFile, FS.readFile]

theorem FS.readFile_writeFile_of_ne (fs : FS) (n n' c : String) (h : n ≠ n') :
    (fs.writeFile n c).readFile n' = fs.readFile n' := by
  simp [FS.writeFile, FS.readFile, List.find?_cons_of_neg, h]

theorem reportFileName_injective {a b : String}
    (h : reportFileName a = reportFileName b) : a = b := by
  have hd := congrArg String.data h
  simp only [reportFileName, String.data_append] at hd
  exact congrArg String.mk ((List.append_right_inj _).mp ((List.append_left_inj _).mp hd))

/-! ### Claim theorems -/

set_option maxRecDepth 8192

/-- C1: for every target string `t`, `create_investigation_plan t` returns
exactly 7 task descriptors, assigned in the fixed role order (preliminary,
social, technical, behavioral, aggregation, deep-search, verification); each
description begins with its stage's fixed template prefix (pinning the stage
order) and contains `t` verbatim. -/
theorem c1_plan_shape (t : String) :
    (create_investigation_plan t).length = 7 ∧
    (create_investigation_plan t).map Task.agent =
      [lead_analyst, social_expert, technical_analyst, behavior_analyst,
       lead_analyst, deep_search_expert, verification_expert] ∧
    (∀ task ∈ create_investigation_plan t, containsSubstring task.description t) ∧
    (∃ rest, ((create_investigation_plan t)[0]!).description =
      "\n        Conduct a preliminary analysis of the target: " ++ rest) ∧
    (∃ rest, ((create_investigation_plan t)[1]!).description =
      "\n        Based on the preliminary analysis, investigate the social networks of " ++ rest) ∧
    (∃ rest, ((create_investigation_plan t)[2]!).description =
      "\n        Conduct a technical analysis of the found data on " ++ rest) ∧
    (∃ rest, ((create_investigation_plan t)[3]!).description =
      "\n        Based on the collected data, analyze the behavior of " ++ rest) ∧
    (∃ rest, ((create_investigation_plan t)[4]!).description =
      "\n        Analyze all collected data on " ++ rest) ∧
    (∃ rest, ((create_investigation_plan t)[5]!).description =
      "\n        Conduct a deep search for information on " ++ rest) ∧
    (∃ rest, ((create_investigation_plan t)[6]!).description =
      "\n        Verify the reliability of all collected information on " ++ rest) := by
  refine ⟨rfl, rfl, ?_,
    ⟨t ++ "\n        1. Identify main presence platforms\n        2. Find key identifiers (email, username, etc.)\n        3. Create an initial profile\n        4. Determine priority areas for deep analysis\n        \n        Delegate subtasks to other agents if necessary.\n        ", rfl⟩,
    ⟨t ++ ":\n        1. Find all related profiles\n        2. Analyze contacts and connections\n        3. Study activity history\n        4. Identify behavioral patterns\n        ", rfl⟩,
    ⟨t ++ ":\n        1. Check for data leaks\n        2. Find related domains and IPs\n        3. Analyze technical metadata\n        4. Investigate digital footprints\n        ", rfl⟩,
    ⟨t ++ ":\n        1. Determine main interests\n        2. Identify behavioral patterns\n        3. Analyze social connections\n        4. Create a psychological profile\n        ", rfl⟩,
    ⟨t ++ ":\n        1. Combine information from all agents\n        2. Identify data gaps\n        3. Plan additional search directions\n        4. Create a detailed target profile\n        ", rfl⟩,
    ⟨t ++ ":\n        1. Investigate archival data and historical records\n        2. Analyze specialized databases\n        3. Find non-obvious connections and mentions\n        4. Investigate rare and specific sources\n        ", rfl⟩,
    ⟨t ++ ":\n        1. Conduct cross-reference analysis of data\n        2. Confirm information from multiple sources\n        3. Identify possible misinformation\n        4. Assess the reliability of each source\n        ", rfl⟩⟩
  intro task h
  simp only [create_investigation_plan, List.mem_cons, List.not_mem_nil, or_false] at h
  rcases h with rfl | rfl | rfl | rfl | rfl | rfl | rfl <;>
    exact containsSubstring_of_append _ _ _

/-- Witness for C1 at the concrete target "alice". -/
theorem c1_plan_shape_witness :
    (create_investigation_plan "alice").length = 7 ∧
    containsSubstring ((create_investigation_plan "alice")[0]!).description "alice" :=
  ⟨(c1_plan_shape "alice").1,
   (c1_plan_shape "alice").2.2.1 ((create_investigation_plan "alice")[0]!)
     (List.mem_cons_self _ _)⟩

/-- C7: the manager agent holds an empty tool list, is not in the crew's
agent list, is the assigned agent of none of the 7 tasks, and is referenced
exactly as the crew's `manager_agent` coordinator. -/
theorem c7_manager_disjoint (t : String) :
    manager_agent.tools = [] ∧
    manager_agent ∉ (osintCrew t).agents ∧
    (∀ task ∈ (osintCrew t).tasks, task.agent ≠ manager_agent) ∧
    (osintCrew t).manager_agent = manager_agent := by
  refine ⟨rfl,
    show manager_agent ∉
        [lead_analyst, social_expert, technical_analyst, behavior_analyst,
         verification_expert, deep_search_expert, task_keeper, context_analyst]
      from by decide,
    ?_, rfl⟩
  intro task h
  have h' : task ∈ create_investigation_plan t := h
  simp only [create_investigation_plan, List.mem_cons, List.not_mem_nil, or_false] at h'
  rcases h' with rfl | rfl | rfl | rfl | rfl | rfl | rfl
  · show lead_analyst ≠ manager_agent; decide
  · show social_expert ≠ manager_agent; decide
  · show technical_analyst ≠ manager_agent; decide
  · show behavior_analyst ≠ manager_agent; decide
  · show lead_analyst ≠ manager_agent; decide
  · show deep_search_expert ≠ manager_agent; decide
  · show verification_expert ≠ manager_agent; decide

/-- Witness for C7 at the concrete target "alice". -/
theorem c7_manager_disjoint_witness :
    manager_agent.tools = [] ∧
    ((create_investigation_plan "alice")[0]!).agent ≠ manager_agent :=
  ⟨(c7_manager_disjoint "alice").1,
   (c7_manager_disjoint "alice").2.2.1 ((create_investigation_plan "alice")[0]!)
     (List.mem_cons_self _ _)⟩

/-- C9: the 7 tasks are assigned to only 6 of the 8 roster agents: the lead
analyst gets exactly two tasks (the first and the fifth), while the task
keeper and the context analyst are in the crew's agent list but assigned to
no task. -/
theorem c9_six_of_eight (t : String) :
    ((create_investigation_plan t).map Task.agent).count lead_analyst = 2 ∧
    ((create_investigation_plan t)[0]!).agent = lead_analyst ∧
    ((create_investigation_plan t)[4]!).agent = lead_analyst ∧
    ((create_investigation_plan t).map Task.agent).dedup.length = 6 ∧
    (osintCrew t).agents.length = 8 ∧
    task_keeper ∈ (osintCrew t).agents ∧
    context_analyst ∈ (osintCrew t).agents ∧
    ∀ task ∈ create_investigation_plan t,
      task.agent ≠ task_keeper ∧ task.agent ≠ context_analyst := by
  refine ⟨
    show ([lead_analyst, social_expert, technical_analyst, behavior_analyst,
           lead_analyst, deep_search_expert, verification_expert]).count lead_analyst = 2
      from by decide,
    rfl, rfl,
    show ([lead_analyst, social_expert, technical_analyst, behavior_analyst,
           lead_analyst, deep_search_expert, verification_expert]).dedup.length = 6
      from by decide,
    rfl,
    show task_keeper ∈
        [lead_analyst, social_expert, technical_analyst, behavior_analyst,
         verification_expert, deep_search_expert, task_keeper, context_analyst]
      from by decide,
    show context_analyst ∈
        [lead_analyst, social_expert, technical_analyst, behavior_analyst,
         verification_expert, deep_search_expert, task_keeper, context_analyst]
      from by decide,
    ?_⟩
  intro task h
  simp only [create_investigation_plan, List.mem_cons, List.not_mem_nil, or_false] at h
  rcases h with rfl | rfl | rfl | rfl | rfl | rfl | rfl
  · exact ⟨show lead_analyst ≠ task_keeper from by decide,
           show lead_analyst ≠ context_analyst from by decide⟩
  · exact ⟨show social_expert ≠ task_keeper from by decide,
           show social_expert ≠ context_analyst from by decide⟩
  · exact ⟨show technical_analyst ≠ task_keeper from by decide,
           show technical_analyst ≠ context_analyst from by decide⟩
  · exact ⟨show behavior_analyst ≠ task_keeper from by decide,
           show behavior_analyst ≠ context_analyst from by decide⟩
  · exact ⟨show lead_analyst ≠ task_keeper from by decide,
           show lead_analyst ≠ context_analyst from by decide⟩
  · exact ⟨show deep_search_expert ≠ task_keeper from by decide,
           show deep_search_expert ≠ context_analyst from by decide⟩
  · exact ⟨show verification_expert ≠ task_keeper from by decide,
           show verification_expert ≠ context_analyst from by decide⟩

/-- Witness for C9 at the concrete target "alice". -/
theorem c9_six_of_eight_witness :
    ((create_investigation_plan "alice")[1]!).agent ≠ task_keeper ∧
    ((create_investigation_plan "alice")[1]!).agent ≠ context_analyst :=
  (c9_six_of_eight "alice").2.2.2.2.2.2.2 ((create_investigation_plan "alice")[1]!)
    (List.mem_cons_of_mem _ (List.mem_cons_self _ _))

/-- C2: on a successful orchestration returning result `r`, with all writes
succeeding, the runner returns the result and writes, under `osint_results`
and named by the second timestamp, a file containing exactly: the fixed
header line, a separator, the literal target, a second separator, and the
literal result text (no transformation applied), with nothing printed. -/
theorem c2_success_report (env : RunEnv) (target : String) (fs : FS) (r : OsintResult)
    (hk : env.kickoff = Except.ok r) (hw : env.writeFail = none) :
    run_osint_investigation env target fs =
      (some r,
       fs.writeFile ("osint_results/investigation_" ++ env.ts2 ++ ".txt")
         ("OSINT Investigation Report\n" ++ (sep50 ++ "\n\n") ++
          ("Assigned task: " ++ target ++ "\n") ++ (sep50 ++ "\n\n") ++ r.text),
       []) := by
  simp only [run_osint_investigation, hk, hw]
  rfl

/-- Witness for C2 at a concrete environment, target and result. -/
theorem c2_success_report_witness :
    run_osint_investigation
        ⟨"20240101_120000", "20240101_120001", Except.ok ⟨"RESULT", true⟩, none, ""⟩
        "TARGET" ⟨[]⟩ =
      (some ⟨"RESULT", true⟩,
       FS.writeFile ⟨[]⟩ ("osint_results/investigation_" ++ "20240101_120001" ++ ".txt")
         ("OSINT Investigation Report\n" ++ (sep50 ++ "\n\n") ++
          ("Assigned task: " ++ "TARGET" ++ "\n") ++ (sep50 ++ "\n\n") ++ "RESULT"),
       []) :=
  c2_success_report
    ⟨"20240101_120000", "20240101_120001", Except.ok ⟨"RESULT", true⟩, none, ""⟩
    "TARGET" ⟨[]⟩ ⟨"RESULT", true⟩ rfl rfl

/-- C3: when the orchestration call raises with message `e`, the exception is
swallowed: the runner prints the error line, returns `none`, and leaves the
file system (hence the results directory) unchanged. -/
theorem c3_orchestration_failure (env : RunEnv) (target : String) (fs : FS) (e : String)
    (hk : env.kickoff = Except.error e) :
    run_osint_investigation env target fs = (none, fs, ["Error: " ++ e]) := by
  simp only [run_osint_investigation, hk]

/-- Witness for C3 at a concrete failing environment. -/
theorem c3_orchestration_failure_witness :
    run_osint_investigation
        ⟨"20240101_120000", "20240101_120001", Except.error "boom", none, ""⟩
        "TARGET" ⟨[]⟩ =
      (none, ⟨[]⟩, ["Error: " ++ "boom"]) :=
  c3_orchestration_failure
    ⟨"20240101_120000", "20240101_120001", Except.error "boom", none, ""⟩
    "TARGET" ⟨[]⟩ "boom" rfl

/-- C4 counterexample: a failure during report writing after a successful
orchestration (here the first `f.write` raises) still leaves a (partial,
here empty) report file on disk, although the runner returns `none` — the
claim that no report file is written on every failure inside the try block
is false. -/
theorem c4_counterexample :
    (run_osint_investigation
        ⟨"20240101_120000", "20240101_120001", Except.ok ⟨"RESULT", true⟩, some 0, "disk full"⟩
        "TARGET" ⟨[]⟩).1 = none ∧
    (run_osint_investigation
        ⟨"20240101_120000", "20240101_120001", Except.ok ⟨"RESULT", true⟩, some 0, "disk full"⟩
        "TARGET" ⟨[]⟩).2.1 ≠ (⟨[]⟩ : FS) ∧
    FS.readFile
      (run_osint_investigation
        ⟨"20240101_120000", "20240101_120001", Except.ok ⟨"RESULT", true⟩, some 0, "disk full"⟩
        "TARGET" ⟨[]⟩).2.1
      (reportFileName "20240101_120001") = some "" := by
  refine ⟨rfl, ?_, rfl⟩
  decide

/-- C4 amended: for failures arising before the report file is opened — any
exception in task assembly or the orchestration call itself — no report file
is written and the file system is unchanged; the runner only prints the
message and returns `none`. -/
theorem c4_pre_open_failure_clean (env : RunEnv) (target : String) (fs : FS) (e : String)
    (hk : env.kickoff = Except.error e) :
    (run_osint_investigation env target fs).1 = none ∧
    (run_osint_investigation env target fs).2.1 = fs ∧
    (run_osint_investigation env target fs).2.2 = ["Error: " ++ e] := by
  refine ⟨?_, ?_, ?_⟩ <;> simp only [run_osint_investigation, hk]

/-- Witness for the amended C4 at a concrete failing environment. -/
theorem c4_pre_open_failure_clean_witness :
    (run_osint_investigation
        ⟨"pre1", "pre2", Except.error "no network", none, ""⟩ "bob" ⟨[]⟩).1 = none ∧
    (run_osint_investigation
        ⟨"pre1", "pre2", Except.error "no network", none, ""⟩ "bob" ⟨[]⟩).2.1 = ⟨[]⟩ ∧
    (run_osint_investigation
        ⟨"pre1", "pre2", Except.error "no network", none, ""⟩ "bob" ⟨[]⟩).2.2 =
      ["Error: " ++ "no network"] :=
  c4_pre_open_failure_clean
    ⟨"pre1", "pre2", Except.error "no network", none, ""⟩ "bob" ⟨[]⟩ "no network" rfl

/-- C5 counterexample: `parse_osint_query` does not merely strip a leading
prefix: on an input containing the marker mid-string it removes the marker
from the middle (the source's `str.replace` removes every occurrence and the
guard only tests containment), so the code's output differs from the
spec-described prefix-stripping normalizer. -/
theorem c5_counterexample :
    parse_osint_query "abcEnter target for OSINT:def" ≠
      parse_osint_query_speced "abcEnter target for OSINT:def" ∧
    normalizeOsintQuery "abcEnter target for OSINT:def" = "abcdef" := by
  exact ⟨by decide, by decide⟩

/-- C5 amended: for every input, `parse_osint_query` removes every occurrence
of the marker and strips surrounding whitespace when the marker occurs
anywhere in the input (leaving the input untouched, whitespace included,
otherwise), then deterministically wraps the resulting text in the fixed
template, which restates it exactly twice — once on the "Investigation
target" line and once on the "Original query" line — around the four fixed
instruction bullets. -/
theorem c5_template_shape (q : String) :
    parse_osint_query q =
      "\n    Investigation target: " ++ normalizeOsintQuery q ++
      "\n    \n    Required:\n    1. Find all available information on the target\n    2. Verify provided assumptions about age\n    3. If requested - determine the birth month\n    4. If requested - check presence on specialized forums\n    \n    Original query: " ++
      normalizeOsintQuery q ++ "\n    " := by
  unfold parse_osint_query normalizeOsintQuery
  rfl

/-- C6: two successful runs for the same target whose filename timestamps
differ produce two distinct report files; after the second run both files are
present with their own full contents, neither overwriting the other. -/
theorem c6_two_runs_distinct (env1 env2 : RunEnv) (target : String) (fs : FS)
    (r1 r2 : OsintResult)
    (h1 : env1.kickoff = Except.ok r1) (hw1 : env1.writeFail = none)
    (h2 : env2.kickoff = Except.ok r2) (hw2 : env2.writeFail = none)
    (hts : env1.ts2 ≠ env2.ts2) :
    reportFileName env1.ts2 ≠ reportFileName env2.ts2 ∧
    FS.readFile (run_osint_investigation env2 target
        (run_osint_investigation env1 target fs).2.1).2.1
      (reportFileName env1.ts2) = some (reportContent target r1) ∧
    FS.readFile (run_osint_investigation env2 target
        (run_osint_investigation env1 target fs).2.1).2.1
      (reportFileName env2.ts2) = some (reportContent target r2) := by
  have hname : reportFileName env1.ts2 ≠ reportFileName env2.ts2 :=
    fun h => hts (reportFileName_injective h)
  refine ⟨hname, ?_, ?_⟩
  · simp only [run_osint_investigation, h1, hw1, h2, hw2]
    rw [FS.readFile_writeFile_of_ne _ _ _ _ (Ne.symm hname)]
    exact FS.readFile_writeFile_self _ _ _
  · simp only [run_osint_investigation, h1, hw1, h2, hw2]
    exact FS.readFile_writeFile_self _ _ _

/-- Witness for C6 at two concrete environments with different timestamps. -/
theorem c6_two_runs_distinct_witness :
    reportFileName "20240101_120001" ≠ reportFileName "20240101_130001" ∧
    FS.readFile (run_osint_investigation
        ⟨"b1", "20240101_130001", Except.ok ⟨"R2", true⟩, none, ""⟩ "TARGET"
        (run_osint_investigation
          ⟨"a1", "20240101_120001", Except.ok ⟨"R1", true⟩, none, ""⟩ "TARGET" ⟨[]⟩).2.1).2.1
      (reportFileName "20240101_120001") = some (reportContent "TARGET" ⟨"R1", true⟩) ∧
    FS.readFile (run_osint_investigation
        ⟨"b1", "20240101_130001", Except.ok ⟨"R2", true⟩, none, ""⟩ "TARGET"
        (run_osint_investigation
          ⟨"a1", "20240101_120001", Except.ok ⟨"R1", true⟩, none, ""⟩ "TARGET" ⟨[]⟩).2.1).2.1
      (reportFileName "20240101_130001") = some (reportContent "TARGET" ⟨"R2", true⟩) :=
  c6_two_runs_distinct
    ⟨"a1", "20240101_120001", Except.ok ⟨"R1", true⟩, none, ""⟩
    ⟨"b1", "20240101_130001", Except.ok ⟨"R2", true⟩, none, ""⟩
    "TARGET" ⟨[]⟩ ⟨"R1", true⟩ ⟨"R2", true⟩ rfl rfl rfl rfl (by decide)

/-- C8: on the empty input string both the normalizer and the plan builder
return well-formed output with the empty string substituted: the normalizer
yields exactly the fixed template, and the plan has 7 tasks, every one with a
non-empty description and a non-empty expected output. -/
theorem c8_empty_input_wellformed :
    parse_osint_query "" =
      "\n    Investigation target: \n    \n    Required:\n    1. Find all available information on the target\n    2. Verify provided assumptions about age\n    3. If requested - determine the birth month\n    4. If requested - check presence on specialized forums\n    \n    Original query: \n    " ∧
    (create_investigation_plan "").length = 7 ∧
    ((create_investigation_plan "").all (fun task => task.description != "")) = true ∧
    ((create_investigation_plan "").all (fun task => task.expected_output != "")) = true := by
  exact ⟨rfl, rfl, rfl, rfl⟩

/-- C10: the entry point prints the "Investigation results:" banner only when
the runner's return value is truthy.  In particular, on a successful run
whose result is falsy the report file is still written, yet nothing is
printed at all; and in general a falsy return adds nothing beyond what the
runner itself printed. -/
theorem c10_truthy_gate (env : RunEnv) (query : String) (fs : FS) (r : OsintResult)
    (hk : env.kickoff = Except.ok r) (hw : env.writeFail = none) (ht : r.truthy = false) :
    (osint_main env query fs).2 = [] ∧
    (osint_main env query fs).1.readFile (reportFileName env.ts2) =
      some (reportContent (parse_osint_query query) r) ∧
    (∀ envB fsB qB,
      resultTruthy (run_osint_investigation envB (parse_osint_query qB) fsB).1 = false →
        (osint_main envB qB fsB).2 =
          (run_osint_investigation envB (parse_osint_query qB) fsB).2.2) := by
  refine ⟨?_, ?_, ?_⟩
  · simp only [osint_main, run_osint_investigation, hk, hw, resultTruthy, ht,
      Bool.false_eq_true, if_false]
  · simp only [osint_main, run_osint_investigation, hk, hw, resultTruthy, ht,
      Bool.false_eq_true, if_false]
    exact FS.readFile_writeFile_self _ _ _
  · intro envB fsB qB htr
    rcases hrun : run_osint_investigation envB (parse_osint_query qB) fsB with ⟨res, fs2, out⟩
    rw [hrun] at htr
    simp only [osint_main, hrun]
    simp only [resultTruthy] at htr ⊢
    simp [htr]

/-- Witness for C10 at a concrete falsy-but-successful environment. -/
theorem c10_truthy_gate_witness :
    (osint_main ⟨"w1", "w2", Except.ok ⟨"", false⟩, none, ""⟩ "bob" ⟨[]⟩).2 = [] ∧
    (osint_main ⟨"w1", "w2", Except.ok ⟨"", false⟩, none, ""⟩ "bob" ⟨[]⟩).1.readFile
      (reportFileName "w2") = some (reportContent (parse_osint_query "bob") ⟨"", false⟩) :=
  ⟨(c10_truthy_gate ⟨"w1", "w2", Except.ok ⟨"", false⟩, none, ""⟩ "bob" ⟨[]⟩
      ⟨"", false⟩ rfl rfl rfl).1,
   (c10_truthy_gate ⟨"w1", "w2", Except.ok ⟨"", false⟩, none, ""⟩ "bob" ⟨[]⟩
      ⟨"", false⟩ rfl rfl rfl).2.1⟩

end Osint
